import Mathlib

/-!
Verification development for `uima_cas_to_ttl.py`: a converter from UIMA CAS
annotation exports to a NIF RDF graph.  The Python functions `cas_to_nif_graph`
and `main` are shallowly embedded below; the RDF graph (an rdflib `Graph`,
a set of triples with idempotent `add`) is modelled as a `Finset` of triples.
-/

namespace UimaCasToTtl

/-- An RDF node: a URI reference, a language-tagged string literal
(`Literal(s, lang=...)`), or an integer literal with a datatype URI
(`Literal(n, datatype=...)`). -/
inductive Node where
  | uriRef (u : String)
  | litLang (s : String) (lang : String)
  | litInt (n : Int) (dt : String)
  deriving DecidableEq

/-- An RDF triple (subject, predicate, object). -/
structure Triple where
  subj : Node
  pred : Node
  obj : Node
  deriving DecidableEq

/-- The rdflib `Graph` is a set of triples; `graph.add` is idempotent insertion. -/
abbrev RDFGraph := Finset Triple

/-- `NIF` namespace string from the source. -/
def nifNS : String := "http://persistence.uni-leipzig.org/nlp2rdf/ontologies/nif-core#"

/-- `ITSRDF` namespace string from the source. -/
def itsrdfNS : String := "http://www.w3.org/2005/11/its/rdf#"

def rdf_type : Node := Node.uriRef ("http://www.w3.org/1999/02/22-rdf-syntax-ns#type")

def xsdNonNegativeInteger : String := "http://www.w3.org/2001/XMLSchema#nonNegativeInteger"

def nifRFC5147String : Node := Node.uriRef (nifNS ++ "RFC5147String")

def nifString : Node := Node.uriRef (nifNS ++ "String")

def nifContext : Node := Node.uriRef (nifNS ++ "Context")

def nifBeginIndex : Node := Node.uriRef (nifNS ++ "beginIndex")

def nifEndIndex : Node := Node.uriRef (nifNS ++ "endIndex")

def nifIsString : Node := Node.uriRef (nifNS ++ "isString")

def nifAnchorOf : Node := Node.uriRef (nifNS ++ "anchorOf")

def nifReferenceContext : Node := Node.uriRef (nifNS ++ "referenceContext")

def itsrdfTaIdentRef : Node := Node.uriRef (itsrdfNS ++ "taIdentRef")

/-- The language tag used for every text literal in the source (`lang='en'`). -/
def enLang : String := "en"

/-- The needle of the identifier-selection test (`'wikidata.org/entity' in u`). -/
def wdNeedle : String := "wikidata.org/entity"

/-- The fragment piece `"#char="` of entity URIs. -/
def charFrag : String := "#char="

/-- The fragment piece `"#char=0,"` of the context URI. -/
def charZeroFrag : String := "#char=0,"

/-- The comma separating begin and end in a `#char=` fragment. -/
def commaS : String := ","

/-- The value of `getattr(annotation, 'identifier', None)`: absent (`None`),
a single string, or a list of strings. -/
inductive IdentVal where
  | noneV
  | str (s : String)
  | list (l : List String)
  deriving DecidableEq

/-- One element of `cas_data.select_all()`.  `span` is an annotation having
both `begin` and `end` attributes (with its optional `identifier`); `other`
is any annotation failing the `hasattr` checks, which the loop ignores. -/
inductive Annot where
  | span (begin : Int) (endp : Int) (identifier : IdentVal)
  | other
  deriving DecidableEq

/-- The CAS document: its `sofa_string` text and the annotations returned by
`select_all()`, in iteration order. -/
structure CasData where
  sofa_string : String
  annots : List Annot
  deriving DecidableEq

/-- `a == b` on character lists; prefix test used by `strContains`. -/
def listStartsWith : List Char → List Char → Bool
  | [], _ => true
  | _ :: _, [] => false
  | a :: as, b :: bs => a == b && listStartsWith as bs

/-- Substring containment on character lists: Python's `needle in hay`. -/
def listContainsSub (needle : List Char) : List Char → Bool
  | [] => needle.isEmpty
  | c :: t => listStartsWith needle (c :: t) || listContainsSub needle t

/-- Python's `needle in hay` on strings. -/
def strContains (needle hay : String) : Bool :=
  listContainsSub needle.data hay.data

/-- Clamp one bound of a Python slice `s[a:b]` into `[0, n]`:
negative indices count from the end. -/
def pyClamp (n : Nat) (i : Int) : Nat :=
  if i < 0 then (Int.ofNat n + i).toNat else min i.toNat n

/-- Python's `s[a:b]` (step 1) on a character list. -/
def pySlice (s : List Char) (a b : Int) : List Char :=
  (s.take (pyClamp s.length b)).drop (pyClamp s.length a)

/-- Python's `str.strip()`: drop whitespace from both ends. -/
def pyStrip (s : List Char) : List Char :=
  ((s.dropWhile Char.isWhitespace).reverse.dropWhile Char.isWhitespace).reverse

/-- The `for u in uris: if 'wikidata.org/entity' in u: ... break` loop:
first identifier containing the Wikidata needle, if any. -/
def findWikidata : List String → Option String
  | [] => none
  | u :: rest => if strContains wdNeedle u then some u else findWikidata rest

/-- The entity URI `f'{document_url}#char={begin},{end}'`. -/
def entityUri (document_url : String) (b e : Int) : Node :=
  Node.uriRef (document_url ++ charFrag ++ toString b ++ commaS ++ toString e)

/-- The body of the `for annotation in cas_data.select_all()` loop: one
annotation's effect on the graph.  `uriOk u` models whether `URIRef(u)`
construction succeeds (the `try`/`except` around the `taIdentRef` add). -/
def processAnnot (uriOk : String → Bool) (document_url : String) (text : String)
    (context_uri : Node) (graph : RDFGraph) (a : Annot) : RDFGraph :=
  match a with
  | .other => graph
  | .span b e identifier =>
    if b ≥ e ∨ e > (text.length : Int) then graph
    else
      let entity_text := pyStrip (pySlice text.data b e)
      if entity_text = [] then graph
      else
        let entity_text_literal := Node.litLang (String.mk entity_text) enLang
        let uris : Option (List String) :=
          match identifier with
          | .noneV => none
          | .str s => some [s]
          | .list l => some l
        match uris with
        | none => graph
        | some us =>
          match findWikidata us with
          | none => graph
          | some uri =>
            let entity_uri := entityUri document_url b e
            let g1 := insert (Triple.mk entity_uri rdf_type nifRFC5147String) graph
            let g2 := insert (Triple.mk entity_uri rdf_type nifString) g1
            let g3 := insert (Triple.mk entity_uri nifAnchorOf entity_text_literal) g2
            let g4 := insert (Triple.mk entity_uri nifBeginIndex (Node.litInt b xsdNonNegativeInteger)) g3
            let g5 := insert (Triple.mk entity_uri nifEndIndex (Node.litInt e xsdNonNegativeInteger)) g4
            let g6 := insert (Triple.mk entity_uri nifReferenceContext context_uri) g5
            if uriOk uri then
              insert (Triple.mk entity_uri itsrdfTaIdentRef (Node.uriRef uri)) g6
            else g6

/-- The context URI `f'{document_url}#char=0,{text_length}'`. -/
def contextUri (document_url : String) (text_length : Nat) : Node :=
  Node.uriRef (document_url ++ charZeroFrag ++ toString text_length)

/-- Embedding of `cas_to_nif_graph(cas_data, document_url, graph)`: returns
the graph after the call (the Python function mutates `graph` in place). -/
def cas_to_nif_graph (uriOk : String → Bool) (cas_data : CasData)
    (document_url : String) (graph : RDFGraph) : RDFGraph :=
  let text := cas_data.sofa_string
  let text_length := (pyStrip text.data).length
  if text_length = 0 then graph
  else
    let text_literal := Node.litLang text enLang
    let context_uri := contextUri document_url text_length
    let g1 := insert (Triple.mk context_uri rdf_type nifRFC5147String) graph
    let g2 := insert (Triple.mk context_uri rdf_type nifString) g1
    let g3 := insert (Triple.mk context_uri rdf_type nifContext) g2
    let g4 := insert (Triple.mk context_uri nifBeginIndex (Node.litInt 0 xsdNonNegativeInteger)) g3
    let g5 := insert (Triple.mk context_uri nifEndIndex (Node.litInt (text_length : Int) xsdNonNegativeInteger)) g4
    let g6 := insert (Triple.mk context_uri nifIsString text_literal) g5
    cas_data.annots.foldl (processAnnot uriOk document_url text context_uri) g6

/-- The per-document loop of `main`: each document is converted into the one
shared graph, in list order. -/
def processDocs (uriOk : String → Bool) (docs : List (CasData × String))
    (graph : RDFGraph) : RDFGraph :=
  docs.foldl (fun acc d => cas_to_nif_graph uriOk d.1 d.2 acc) graph

/-- The extension filter of `main` (`filename.endswith('.json')`). -/
def jsonExt : String := ".json"

/-- Python's `s.endswith(suf)`. -/
def strEndsWith (suf s : String) : Bool :=
  listStartsWith suf.data.reverse s.data.reverse

def dotChar : Char := '.'

/-- `os.path.splitext(filename)[0]` for filenames with a dot extension
(the `main` loop only applies it to names ending in `.json`): everything
before the last dot; a dotless name is returned whole. -/
def splitextStem (s : String) : String :=
  match s.data.reverse.dropWhile (fun c => c ≠ dotChar) with
  | [] => s
  | _ :: rest => String.mk rest.reverse

/-- The base of generated document URLs (`f"http://example.org/{...}"`). -/
def exampleOrgBase : String := "http://example.org/"

/-- The error raised by `g.serialize` when the destination cannot be
written (rdflib, surfaced as a `SerializationError`/`Exception`). -/
def serializationError : String := "SerializationError"

/-- Outcome of the final `g.serialize(destination=..., format='turtle')`. -/
def serializeResult (serializeOk : Bool) : Except String Unit :=
  if serializeOk then Except.ok () else Except.error serializationError

/-- Observable outcome of one `main` run: the accumulated graph, the files
whose processing raised (caught and logged), whether the final-write error
handler logged a serialization error, and the exception escaping `main`
to its caller, if any. -/
structure MainOutcome where
  graph : RDFGraph
  failedFiles : List String
  serializeErrorLogged : Bool
  uncaught : Option String
  deriving DecidableEq

/-- Embedding of `main`'s processing and error handling.  Each input file is
a name paired with its loader outcome (`some cas` when `load_cas_from_json`
returns, `none` when it raises; the surrounding `try`/`except` catches,
logs, and continues with the next file).  `serializeOk` says whether the
final `g.serialize` call succeeds; its `try`/`except` catches the error and
prints it.  Every raise site in `main` sits inside a `try`, so no exception
escapes to the caller (`uncaught := none` in every branch). -/
def mainRun (uriOk : String → Bool) (files : List (String × Option CasData))
    (serializeOk : Bool) : MainOutcome :=
  let step := fun (st : RDFGraph × List String) (f : String × Option CasData) =>
    if strEndsWith jsonExt f.1 then
      match f.2 with
      | some cas_data =>
        (cas_to_nif_graph uriOk cas_data (exampleOrgBase ++ splitextStem f.1) st.1, st.2)
      | none => (st.1, st.2 ++ [f.1])
    else (st.1, st.2)
  let st := files.foldl step ((∅ : RDFGraph), ([] : List String))
  match serializeResult serializeOk with
  | Except.ok _ =>
    { graph := st.1, failedFiles := st.2, serializeErrorLogged := false, uncaught := none }
  | Except.error _ =>
    { graph := st.1, failedFiles := st.2, serializeErrorLogged := true, uncaught := none }

/-! ### Concrete fixtures used by the claim instances -/

/-- Models `URIRef` construction always succeeding. -/
def uriOkAlways : String → Bool := fun _ => true

/-- Models `URIRef` construction always raising. -/
def uriOkNever : String → Bool := fun _ => false

def berlinText : String := "Berlin is a city."

def q64 : String := "http://www.wikidata.org/entity/Q64"

def dbpediaBerlin : String := "http://dbpedia.org/resource/Berlin"

def exampleUrl : String := "http://example.org/doc1"

def anchorBerlin : String := "Berlin"

/-- The spec's end-to-end scenario document. -/
def berlinDoc : CasData :=
  { sofa_string := berlinText, annots := [Annot.span 0 6 (IdentVal.list [q64])] }

def berlinCtx : Node := contextUri exampleUrl 17

def berlinEntity : Node := entityUri exampleUrl 0 6

def hiText : String := "hi"

def spacedHiText : String := " hi"

/-- A document whose text has leading whitespace and no annotations. -/
def spacedHiDoc : CasData := { sofa_string := spacedHiText, annots := [] }

def wsText : String := "   "

/-- A document whose text trims to the empty string. -/
def wsDoc : CasData := { sofa_string := wsText, annots := [] }

/-- A document with a span whose `begin` is negative: the bounds check only
tests `begin >= end` and `end > len(text)`. -/
def negSpanDoc : CasData :=
  { sofa_string := berlinText, annots := [Annot.span (-17) 6 (IdentVal.list [q64])] }

def spacedBerlinText : String := " Berlin is a city."

/-- Leading-whitespace document with a span reaching past the trimmed
length (but within the untrimmed text). -/
def spacedBerlinDoc : CasData :=
  { sofa_string := spacedBerlinText, annots := [Annot.span 1 18 (IdentVal.list [q64])] }

def parisText : String := "Paris is a city."

def parisDoc : CasData := { sofa_string := parisText, annots := [] }

def urlA : String := "http://example.org/docA"

def urlB : String := "http://example.org/docB"

/-- Insert a list of triples left to right (a sequence of `graph.add` calls). -/
def addTriples (ts : List Triple) (g : RDFGraph) : RDFGraph :=
  ts.foldl (fun acc t => insert t acc) g

/-- The six Context-node triples of the Berlin scenario, in emission order. -/
def berlinContextTriples : List Triple :=
  [Triple.mk berlinCtx rdf_type nifRFC5147String,
   Triple.mk berlinCtx rdf_type nifString,
   Triple.mk berlinCtx rdf_type nifContext,
   Triple.mk berlinCtx nifBeginIndex (Node.litInt 0 xsdNonNegativeInteger),
   Triple.mk berlinCtx nifEndIndex (Node.litInt 17 xsdNonNegativeInteger),
   Triple.mk berlinCtx nifIsString (Node.litLang berlinText enLang)]

/-- The six Entity-node triples of the Berlin scenario, in emission order. -/
def berlinEntityTriples : List Triple :=
  [Triple.mk berlinEntity rdf_type nifRFC5147String,
   Triple.mk berlinEntity rdf_type nifString,
   Triple.mk berlinEntity nifAnchorOf (Node.litLang anchorBerlin enLang),
   Triple.mk berlinEntity nifBeginIndex (Node.litInt 0 xsdNonNegativeInteger),
   Triple.mk berlinEntity nifEndIndex (Node.litInt 6 xsdNonNegativeInteger),
   Triple.mk berlinEntity nifReferenceContext berlinCtx]

def berlinTaIdentTriple : Triple :=
  Triple.mk berlinEntity itsrdfTaIdentRef (Node.uriRef q64)

/-- The six Entity-node triples a span `(b, e)` with anchor text `anchor`
contributes, in emission order. -/
def entityTriples (url : String) (b e : Int) (anchor : String) (ctx : Node) : List Triple :=
  [Triple.mk (entityUri url b e) rdf_type nifRFC5147String,
   Triple.mk (entityUri url b e) rdf_type nifString,
   Triple.mk (entityUri url b e) nifAnchorOf (Node.litLang anchor enLang),
   Triple.mk (entityUri url b e) nifBeginIndex (Node.litInt b xsdNonNegativeInteger),
   Triple.mk (entityUri url b e) nifEndIndex (Node.litInt e xsdNonNegativeInteger),
   Triple.mk (entityUri url b e) nifReferenceContext ctx]

/-! ### Structural lemmas: the builder only ever inserts, and what it inserts
does not depend on the graph it is handed. -/

set_option maxHeartbeats 1000000 in
theorem processAnnot_union (uriOk : String → Bool) (url text : String) (ctx : Node)
    (g : RDFGraph) (a : Annot) :
    processAnnot uriOk url text ctx g a = g ∪ processAnnot uriOk url text ctx ∅ a := by
  cases a with
  | other => simp [processAnnot]
  | span b e ident =>
    simp only [processAnnot]
    split
    · simp
    · split
      · simp
      · cases ident with
        | noneV => simp
        | str s =>
          simp only
          cases h : findWikidata [s] with
          | none => simp
          | some u =>
            simp only
            split
            · ext x
              simp only [Finset.mem_insert, Finset.mem_union, Finset.not_mem_empty, or_false]
              tauto
            · ext x
              simp only [Finset.mem_insert, Finset.mem_union, Finset.not_mem_empty, or_false]
              tauto
        | list l =>
          simp only
          cases h : findWikidata l with
          | none => simp
          | some u =>
            simp only
            split
            · ext x
              simp only [Finset.mem_insert, Finset.mem_union, Finset.not_mem_empty, or_false]
              tauto
            · ext x
              simp only [Finset.mem_insert, Finset.mem_union, Finset.not_mem_empty, or_false]
              tauto

theorem foldl_processAnnot_union (uriOk : String → Bool) (url text : String) (ctx : Node)
    (l : List Annot) (g : RDFGraph) :
    l.foldl (processAnnot uriOk url text ctx) g
      = g ∪ l.foldl (processAnnot uriOk url text ctx) ∅ := by
  induction l generalizing g with
  | nil => simp
  | cons a t ih =>
    simp only [List.foldl_cons]
    rw [ih, processAnnot_union, ih (processAnnot uriOk url text ctx ∅ a), Finset.union_assoc]

theorem cas_to_nif_graph_union (uriOk : String → Bool) (cas : CasData) (url : String)
    (g : RDFGraph) :
    cas_to_nif_graph uriOk cas url g = g ∪ cas_to_nif_graph uriOk cas url ∅ := by
  simp only [cas_to_nif_graph]
  split
  · simp
  · rw [foldl_processAnnot_union, foldl_processAnnot_union uriOk url cas.sofa_string _ _
      (insert _ (insert _ (insert _ (insert _ (insert _ (insert _ ∅))))))]
    ext x
    simp only [Finset.mem_insert, Finset.mem_union, Finset.not_mem_empty, or_false]
    tauto

theorem cas_to_nif_graph_comm (uriOk : String → Bool) (a b : CasData) (ua ub : String)
    (g : RDFGraph) :
    cas_to_nif_graph uriOk a ua (cas_to_nif_graph uriOk b ub g)
      = cas_to_nif_graph uriOk b ub (cas_to_nif_graph uriOk a ua g) := by
  rw [cas_to_nif_graph_union uriOk a ua (cas_to_nif_graph uriOk b ub g),
      cas_to_nif_graph_union uriOk b ub g,
      cas_to_nif_graph_union uriOk b ub (cas_to_nif_graph uriOk a ua g),
      cas_to_nif_graph_union uriOk a ua g,
      Finset.union_right_comm]

theorem subset_addTriples (ts : List Triple) (g : RDFGraph) : g ⊆ addTriples ts g := by
  induction ts generalizing g with
  | nil => exact fun x hx => hx
  | cons a l ih =>
    intro x hx
    exact ih (insert a g) (Finset.mem_insert_of_mem hx)

theorem mem_addTriples_of_mem {t : Triple} {ts : List Triple} (g : RDFGraph)
    (h : t ∈ ts) : t ∈ addTriples ts g := by
  induction ts generalizing g with
  | nil => cases h
  | cons a l ih =>
    cases h with
    | head =>
      exact subset_addTriples l (insert t g) (Finset.mem_insert_self t g)
    | tail _ hm => exact ih (insert a g) hm

/-- A span passing both validation checks and carrying an identifier list in
which `findWikidata` selects `u` contributes exactly its six entity triples,
plus the `taIdentRef` triple when `URIRef u` succeeds. -/
theorem processAnnot_list_eval (uriOk : String → Bool) (url text : String) (ctx : Node)
    (g : RDFGraph) (b e : Int) (us : List String) (u : String)
    (hbe : ¬(b ≥ e ∨ e > (text.length : Int)))
    (hne : pyStrip (pySlice text.data b e) ≠ [])
    (hf : findWikidata us = some u) :
    processAnnot uriOk url text ctx g (Annot.span b e (IdentVal.list us)) =
      if uriOk u then
        addTriples (entityTriples url b e (String.mk (pyStrip (pySlice text.data b e))) ctx
          ++ [Triple.mk (entityUri url b e) itsrdfTaIdentRef (Node.uriRef u)]) g
      else
        addTriples (entityTriples url b e (String.mk (pyStrip (pySlice text.data b e))) ctx) g := by
  simp only [processAnnot]
  rw [if_neg hbe, if_neg hne, hf]
  rfl

/-- Evaluating the builder on the Berlin scenario document: the graph grows
by the context triples, the entity triples, and (when `URIRef` construction
succeeds on the selected identifier) the `taIdentRef` triple. -/
theorem berlin_eval (uriOk : String → Bool) (g : RDFGraph) :
    cas_to_nif_graph uriOk berlinDoc exampleUrl g =
      if uriOk q64 then
        addTriples (berlinContextTriples ++ berlinEntityTriples ++ [berlinTaIdentTriple]) g
      else
        addTriples (berlinContextTriples ++ berlinEntityTriples) g := rfl

/-! ### The claims -/

/-- Claim C1: on the document "Berlin is a city." with one span begin=0,
end=6 and identifier list [Q64], the builder adds a Context node typed
nif:Context with isString "Berlin is a city."@en, beginIndex 0, endIndex 17,
and an Entity node with anchorOf "Berlin"@en, beginIndex 0, endIndex 6,
taIdentRef Q64, and referenceContext the Context node URI. -/
theorem C1_end_to_end_berlin (uriOk : String → Bool) (g : RDFGraph)
    (h : uriOk q64 = true) :
    Triple.mk berlinCtx rdf_type nifContext ∈ cas_to_nif_graph uriOk berlinDoc exampleUrl g ∧
    Triple.mk berlinCtx nifIsString (Node.litLang berlinText enLang)
      ∈ cas_to_nif_graph uriOk berlinDoc exampleUrl g ∧
    Triple.mk berlinCtx nifBeginIndex (Node.litInt 0 xsdNonNegativeInteger)
      ∈ cas_to_nif_graph uriOk berlinDoc exampleUrl g ∧
    Triple.mk berlinCtx nifEndIndex (Node.litInt 17 xsdNonNegativeInteger)
      ∈ cas_to_nif_graph uriOk berlinDoc exampleUrl g ∧
    Triple.mk berlinEntity nifAnchorOf (Node.litLang anchorBerlin enLang)
      ∈ cas_to_nif_graph uriOk berlinDoc exampleUrl g ∧
    Triple.mk berlinEntity nifBeginIndex (Node.litInt 0 xsdNonNegativeInteger)
      ∈ cas_to_nif_graph uriOk berlinDoc exampleUrl g ∧
    Triple.mk berlinEntity nifEndIndex (Node.litInt 6 xsdNonNegativeInteger)
      ∈ cas_to_nif_graph uriOk berlinDoc exampleUrl g ∧
    Triple.mk berlinEntity itsrdfTaIdentRef (Node.uriRef q64)
      ∈ cas_to_nif_graph uriOk berlinDoc exampleUrl g ∧
    Triple.mk berlinEntity nifReferenceContext berlinCtx
      ∈ cas_to_nif_graph uriOk berlinDoc exampleUrl g := by
  simp only [berlin_eval uriOk g, h, if_true]
  refine ⟨?_, ?_, ?_, ?_, ?_, ?_, ?_, ?_, ?_⟩ <;>
    exact mem_addTriples_of_mem g (by decide)

/-- Witness for C1 at `uriOkAlways` and the empty graph. -/
theorem C1_end_to_end_berlin_witness :
    uriOkAlways q64 = true ∧
    Triple.mk berlinEntity itsrdfTaIdentRef (Node.uriRef q64)
      ∈ cas_to_nif_graph uriOkAlways berlinDoc exampleUrl ∅ :=
  ⟨rfl, (C1_end_to_end_berlin uriOkAlways ∅ rfl).2.2.2.2.2.2.2.1⟩

/-- Claim C2: for spans passing both checks: no identifiers means the span is
skipped with the graph unchanged; a single string identifier behaves as its
one-element list; the first identifier containing "wikidata.org/entity" is
selected in sequence order (so with two identifiers where only the second
matches, the emitted taIdentRef uses the second, and it is the only
taIdentRef triple emitted for the span); with no matching identifier the
span adds nothing. -/
theorem C2_identifier_selection (uriOk : String → Bool) (url text : String) (ctx : Node)
    (g : RDFGraph) (b e : Int)
    (hbe : ¬(b ≥ e ∨ e > (text.length : Int)))
    (hne : pyStrip (pySlice text.data b e) ≠ []) :
    processAnnot uriOk url text ctx g (Annot.span b e IdentVal.noneV) = g ∧
    (∀ s, processAnnot uriOk url text ctx g (Annot.span b e (IdentVal.str s))
        = processAnnot uriOk url text ctx g (Annot.span b e (IdentVal.list [s]))) ∧
    (∀ u rest, strContains wdNeedle u = true → findWikidata (u :: rest) = some u) ∧
    (∀ u rest, strContains wdNeedle u = false → findWikidata (u :: rest) = findWikidata rest) ∧
    (∀ u1 u2, strContains wdNeedle u1 = false → strContains wdNeedle u2 = true →
      uriOk u2 = true →
      Triple.mk (entityUri url b e) itsrdfTaIdentRef (Node.uriRef u2)
        ∈ processAnnot uriOk url text ctx g (Annot.span b e (IdentVal.list [u1, u2]))) ∧
    (∀ us u, findWikidata us = some u → uriOk u = true →
      ∀ s o, Triple.mk s itsrdfTaIdentRef o
          ∈ processAnnot uriOk url text ctx ∅ (Annot.span b e (IdentVal.list us)) →
        s = entityUri url b e ∧ o = Node.uriRef u) ∧
    (∀ us, findWikidata us = none →
      processAnnot uriOk url text ctx g (Annot.span b e (IdentVal.list us)) = g) := by
  refine ⟨?_, ?_, ?_, ?_, ?_, ?_, ?_⟩
  · simp only [processAnnot]
    rw [if_neg hbe, if_neg hne]
  · intro s
    rfl
  · intro u rest h
    simp [findWikidata, h]
  · intro u rest h
    simp [findWikidata, h]
  · intro u1 u2 h1 h2 h3
    have hf : findWikidata [u1, u2] = some u2 := by simp [findWikidata, h1, h2]
    rw [processAnnot_list_eval uriOk url text ctx g b e [u1, u2] u2 hbe hne hf, if_pos h3]
    exact mem_addTriples_of_mem g (by simp)
  · intro us u hf hok s o hmem
    rw [processAnnot_list_eval uriOk url text ctx ∅ b e us u hbe hne hf, if_pos hok] at hmem
    simp only [addTriples, entityTriples, List.cons_append, List.nil_append,
      List.foldl_cons, List.foldl_nil, Finset.mem_insert, Finset.not_mem_empty,
      or_false] at hmem
    rcases hmem with h | h | h | h | h | h | h
    · injection h with h1 h2 h3
      exact ⟨h1, h3⟩
    · injection h with h1 h2 h3
      exact absurd h2 (by decide)
    · injection h with h1 h2 h3
      exact absurd h2 (by decide)
    · injection h with h1 h2 h3
      exact absurd h2 (by decide)
    · injection h with h1 h2 h3
      exact absurd h2 (by decide)
    · injection h with h1 h2 h3
      exact absurd h2 (by decide)
    · injection h with h1 h2 h3
      exact absurd h2 (by decide)
  · intro us hf
    simp only [processAnnot]
    rw [if_neg hbe, if_neg hne, hf]

/-- Witness for C2: the Berlin span with identifiers [dbpedia, Q64] — only
the second contains the Wikidata needle, and its taIdentRef is emitted. -/
theorem C2_identifier_selection_witness :
    Triple.mk (entityUri exampleUrl 0 6) itsrdfTaIdentRef (Node.uriRef q64)
      ∈ processAnnot uriOkAlways exampleUrl berlinText berlinCtx ∅
          (Annot.span 0 6 (IdentVal.list [dbpediaBerlin, q64])) :=
  (C2_identifier_selection uriOkAlways exampleUrl berlinText berlinCtx ∅ 0 6
    (by decide) (by decide)).2.2.2.2.1 dbpediaBerlin q64 (by decide) (by decide) rfl

/-- Claim C3 counterexample: on the document " hi" (leading whitespace), the
context node carries isString " hi"@en — the untrimmed text — not the
trimmed "hi"@en value the claim states. -/
theorem C3_counterexample_untrimmed_isString :
    pyStrip spacedHiText.data = hiText.data ∧
    Triple.mk (contextUri exampleUrl 2) nifIsString (Node.litLang hiText enLang)
      ∉ cas_to_nif_graph uriOkAlways spacedHiDoc exampleUrl ∅ ∧
    Triple.mk (contextUri exampleUrl 2) nifIsString (Node.litLang spacedHiText enLang)
      ∈ cas_to_nif_graph uriOkAlways spacedHiDoc exampleUrl ∅ := by decide

/-- Claim C3 (amended): for every document with non-empty trimmed text the
context node at {url}#char=0,{trimmedLength} carries the three types,
beginIndex 0, endIndex trimmedLength, and isString the ORIGINAL (untrimmed)
document text tagged "en". -/
theorem C3_context_node (uriOk : String → Bool) (cas : CasData) (url : String)
    (g : RDFGraph) (h : (pyStrip cas.sofa_string.data).length ≠ 0) :
    Triple.mk (contextUri url (pyStrip cas.sofa_string.data).length) rdf_type nifRFC5147String
      ∈ cas_to_nif_graph uriOk cas url g ∧
    Triple.mk (contextUri url (pyStrip cas.sofa_string.data).length) rdf_type nifString
      ∈ cas_to_nif_graph uriOk cas url g ∧
    Triple.mk (contextUri url (pyStrip cas.sofa_string.data).length) rdf_type nifContext
      ∈ cas_to_nif_graph uriOk cas url g ∧
    Triple.mk (contextUri url (pyStrip cas.sofa_string.data).length) nifBeginIndex
        (Node.litInt 0 xsdNonNegativeInteger)
      ∈ cas_to_nif_graph uriOk cas url g ∧
    Triple.mk (contextUri url (pyStrip cas.sofa_string.data).length) nifEndIndex
        (Node.litInt ((pyStrip cas.sofa_string.data).length : Int) xsdNonNegativeInteger)
      ∈ cas_to_nif_graph uriOk cas url g ∧
    Triple.mk (contextUri url (pyStrip cas.sofa_string.data).length) nifIsString
        (Node.litLang cas.sofa_string enLang)
      ∈ cas_to_nif_graph uriOk cas url g := by
  simp only [cas_to_nif_graph]
  rw [if_neg h, foldl_processAnnot_union]
  refine ⟨?_, ?_, ?_, ?_, ?_, ?_⟩ <;> refine Finset.mem_union_left _ ?_
  · exact Finset.mem_insert_of_mem (Finset.mem_insert_of_mem (Finset.mem_insert_of_mem
      (Finset.mem_insert_of_mem (Finset.mem_insert_of_mem (Finset.mem_insert_self _ _)))))
  · exact Finset.mem_insert_of_mem (Finset.mem_insert_of_mem (Finset.mem_insert_of_mem
      (Finset.mem_insert_of_mem (Finset.mem_insert_self _ _))))
  · exact Finset.mem_insert_of_mem (Finset.mem_insert_of_mem (Finset.mem_insert_of_mem
      (Finset.mem_insert_self _ _)))
  · exact Finset.mem_insert_of_mem (Finset.mem_insert_of_mem (Finset.mem_insert_self _ _))
  · exact Finset.mem_insert_of_mem (Finset.mem_insert_self _ _)
  · exact Finset.mem_insert_self _ _

/-- Witness for C3 (amended) on the Berlin document. -/
theorem C3_context_node_witness :
    Triple.mk (contextUri exampleUrl (pyStrip berlinDoc.sofa_string.data).length) rdf_type
        nifContext
      ∈ cas_to_nif_graph uriOkAlways berlinDoc exampleUrl ∅ :=
  (C3_context_node uriOkAlways berlinDoc exampleUrl ∅ (by decide)).2.2.1

/-- Claim C4: a span failing the bounds check (begin >= end or
end > len(text)) or whose extracted text trims to empty adds nothing. -/
theorem C4_invalid_span_adds_nothing (uriOk : String → Bool) (url text : String)
    (ctx : Node) (g : RDFGraph) (b e : Int) (ident : IdentVal)
    (h : (b ≥ e ∨ e > (text.length : Int)) ∨ pyStrip (pySlice text.data b e) = []) :
    processAnnot uriOk url text ctx g (Annot.span b e ident) = g := by
  simp only [processAnnot]
  rcases h with h | h
  · rw [if_pos h]
  · by_cases hb : b ≥ e ∨ e > (text.length : Int)
    · rw [if_pos hb]
    · rw [if_neg hb, if_pos h]

/-- Witness for C4: begin=6, end=0 fails the bounds check. -/
theorem C4_invalid_span_adds_nothing_witness :
    processAnnot uriOkAlways exampleUrl berlinText berlinCtx ∅
        (Annot.span 6 0 (IdentVal.list [q64])) = ∅ :=
  C4_invalid_span_adds_nothing uriOkAlways exampleUrl berlinText berlinCtx ∅ 6 0
    (IdentVal.list [q64]) (Or.inl (by decide))

/-- Claim C5: a document whose trimmed text is empty leaves the graph
exactly as it was. -/
theorem C5_empty_document_unchanged (uriOk : String → Bool) (cas : CasData)
    (url : String) (g : RDFGraph) (h : (pyStrip cas.sofa_string.data).length = 0) :
    cas_to_nif_graph uriOk cas url g = g := by
  simp only [cas_to_nif_graph]
  rw [if_pos h]

/-- Witness for C5 on a whitespace-only document. -/
theorem C5_empty_document_unchanged_witness :
    cas_to_nif_graph uriOkAlways wsDoc exampleUrl ∅ = ∅ :=
  C5_empty_document_unchanged uriOkAlways wsDoc exampleUrl ∅ (by decide)

/-- Claim C6: when URIRef construction fails on the selected Wikidata
identifier, the six entity-node triples already emitted for the span stay
in the graph (no rollback) and only the taIdentRef triple is omitted. -/
theorem C6_parse_failure_partial_emission (uriOk : String → Bool) (url text : String)
    (ctx : Node) (g : RDFGraph) (b e : Int) (us : List String) (u : String)
    (hbe : ¬(b ≥ e ∨ e > (text.length : Int)))
    (hne : pyStrip (pySlice text.data b e) ≠ [])
    (hf : findWikidata us = some u) (hbad : uriOk u = false) :
    (∀ t, t ∈ entityTriples url b e (String.mk (pyStrip (pySlice text.data b e))) ctx →
      t ∈ processAnnot uriOk url text ctx g (Annot.span b e (IdentVal.list us))) ∧
    (∀ s o, Triple.mk s itsrdfTaIdentRef o
        ∈ processAnnot uriOk url text ctx g (Annot.span b e (IdentVal.list us)) →
      Triple.mk s itsrdfTaIdentRef o ∈ g) := by
  have hcond : ¬ (uriOk u = true) := by simp [hbad]
  rw [processAnnot_list_eval uriOk url text ctx g b e us u hbe hne hf, if_neg hcond]
  constructor
  · intro t ht
    exact mem_addTriples_of_mem g ht
  · intro s o hmem
    simp only [addTriples, entityTriples, List.foldl_cons, List.foldl_nil,
      Finset.mem_insert] at hmem
    rcases hmem with h | h | h | h | h | h | h
    · injection h with h1 h2 h3
      exact absurd h2 (by decide)
    · injection h with h1 h2 h3
      exact absurd h2 (by decide)
    · injection h with h1 h2 h3
      exact absurd h2 (by decide)
    · injection h with h1 h2 h3
      exact absurd h2 (by decide)
    · injection h with h1 h2 h3
      exact absurd h2 (by decide)
    · injection h with h1 h2 h3
      exact absurd h2 (by decide)
    · exact h

/-- Witness for C6: with URIRef always failing, the Berlin span still emits
its anchorOf triple. -/
theorem C6_parse_failure_partial_emission_witness :
    Triple.mk (entityUri exampleUrl 0 6) nifAnchorOf (Node.litLang anchorBerlin enLang)
      ∈ processAnnot uriOkNever exampleUrl berlinText berlinCtx ∅
          (Annot.span 0 6 (IdentVal.list [q64])) :=
  (C6_parse_failure_partial_emission uriOkNever exampleUrl berlinText berlinCtx ∅ 0 6
    [q64] q64 (by decide) (by decide) rfl rfl).1 _ (by decide)

/-- Claim C7: processing a collection of documents in any order yields the
same final triple set. -/
theorem C7_order_independence (uriOk : String → Bool)
    (l1 l2 : List (CasData × String)) (g : RDFGraph) (h : l1.Perm l2) :
    processDocs uriOk l1 g = processDocs uriOk l2 g := by
  induction h generalizing g with
  | nil => rfl
  | cons x _ ih =>
    simp only [processDocs, List.foldl_cons]
    exact ih _
  | swap x y l =>
    simp only [processDocs, List.foldl_cons]
    rw [cas_to_nif_graph_comm]
  | trans _ _ ih1 ih2 =>
    rw [ih1 g, ih2 g]

/-- Witness for C7 on two documents in both orders. -/
theorem C7_order_independence_witness :
    ([(berlinDoc, urlA), (parisDoc, urlB)]).Perm [(parisDoc, urlB), (berlinDoc, urlA)] ∧
    processDocs uriOkAlways [(berlinDoc, urlA), (parisDoc, urlB)] ∅
      = processDocs uriOkAlways [(parisDoc, urlB), (berlinDoc, urlA)] ∅ :=
  ⟨by decide, C7_order_independence uriOkAlways
    [(berlinDoc, urlA), (parisDoc, urlB)] [(parisDoc, urlB), (berlinDoc, urlA)] ∅ (by decide)⟩

/-- Claim C8 counterexample: with the final write failing, `main` logs the
serialization error but lets no exception escape — nothing is surfaced to
the caller as a failure signal. -/
theorem C8_counterexample_error_swallowed :
    (mainRun uriOkAlways [] false).serializeErrorLogged = true ∧
    (mainRun uriOkAlways [] false).uncaught = none ∧
    ¬ (mainRun uriOkAlways [] false).uncaught = some serializationError := by decide

/-- Claim C8 (amended): every raise site in `main` is wrapped in a
`try`/`except`, so no exception — serialization or per-document — escapes
to the caller; a failing final write is logged (and only then). -/
theorem C8_no_error_escapes (uriOk : String → Bool)
    (files : List (String × Option CasData)) (serializeOk : Bool) :
    (mainRun uriOk files serializeOk).uncaught = none ∧
    ((mainRun uriOk files serializeOk).serializeErrorLogged = true ↔ serializeOk = false) := by
  cases serializeOk <;> simp [mainRun, serializeResult]

/-- Claim C9: a span with negative begin (-17) passes the validation checks;
its beginIndex literal is the negative value and its anchorOf text comes
from Python's negative-index slicing. -/
theorem C9_negative_begin_accepted :
    Triple.mk (entityUri exampleUrl (-17) 6) nifBeginIndex
        (Node.litInt (-17) xsdNonNegativeInteger)
      ∈ cas_to_nif_graph uriOkAlways negSpanDoc exampleUrl ∅ ∧
    Triple.mk (entityUri exampleUrl (-17) 6) nifAnchorOf (Node.litLang anchorBerlin enLang)
      ∈ cas_to_nif_graph uriOkAlways negSpanDoc exampleUrl ∅ ∧
    ((-17 : Int) < 0 ∧ (-17 : Int) < 6 ∧ (6 : Int) ≤ (berlinText.length : Int)) ∧
    pySlice berlinText.data (-17) 6 = anchorBerlin.data := by decide

/-- Claim C10: on " Berlin is a city." with span (1, 18), the entity node's
endIndex 18 strictly exceeds the endIndex 17 of the context node it
references. -/
theorem C10_entity_endIndex_exceeds_context :
    Triple.mk (contextUri exampleUrl 17) nifEndIndex
        (Node.litInt 17 xsdNonNegativeInteger)
      ∈ cas_to_nif_graph uriOkAlways spacedBerlinDoc exampleUrl ∅ ∧
    Triple.mk (entityUri exampleUrl 1 18) nifEndIndex
        (Node.litInt 18 xsdNonNegativeInteger)
      ∈ cas_to_nif_graph uriOkAlways spacedBerlinDoc exampleUrl ∅ ∧
    Triple.mk (entityUri exampleUrl 1 18) nifReferenceContext (contextUri exampleUrl 17)
      ∈ cas_to_nif_graph uriOkAlways spacedBerlinDoc exampleUrl ∅ ∧
    (17 : Int) < 18 := by decide

end UimaCasToTtl
